import Mathlib

/-!
Shallow embedding of `src/index.js` of groupher/editorjs-math: the `Math`
Editor.js block class.  The block holds a data record `{text}`, a root
container element, a scratch math node, and calls two external libraries
(`window.math`, the symbolic parser, and `window.MathJax`, the typesetter)
that may be absent.  The DOM is modelled by a small node tree; the
browser's HTML parser (what `innerHTML = s` does to a string) is a
parameter of the environment, since the block never implements it itself.
`console.error` calls are recorded in a log list.  JavaScript `undefined`
fields are modelled by `Option`.
-/

namespace EditorMath

/-- A DOM node: a text node or an element with a tag, its
`contenteditable` flag and child nodes.  Other attributes play no role in
the source; character escaping in serialization is elided. -/
inductive Node where
  | text (s : String)
  | elem (tag : String) (editable : Bool) (children : List Node)

mutual

/-- `textContent` / `innerText` of a node: concatenated text descendants. -/
def nodeTextContent : Node → String
  | Node.text s => s
  | Node.elem _ _ cs => nodesTextContent cs

/-- `textContent` of a node list (an element's children). -/
def nodesTextContent : List Node → String
  | [] => ""
  | n :: ns => nodeTextContent n ++ nodesTextContent ns

end

mutual

/-- `outerHTML` serialization of a node. -/
def nodeOuterHTML : Node → String
  | Node.text s => s
  | Node.elem t ed cs =>
      "<" ++ t ++ (if ed then " contenteditable=\"true\"" else "") ++ ">"
        ++ nodesInnerHTML cs ++ "</" ++ t ++ ">"

/-- `innerHTML` serialization of an element's children. -/
def nodesInnerHTML : List Node → String
  | [] => ""
  | n :: ns => nodeOuterHTML n ++ nodesInnerHTML ns

end

mutual

/-- Whether a node or one of its descendants is an element with tag `t`:
`getElementsByTagName(t).length > 0` seen from a node. -/
def nodeHasTag (t : String) : Node → Bool
  | Node.text _ => false
  | Node.elem tg _ cs => tg == t || nodesHaveTag t cs

/-- `getElementsByTagName(t).length > 0` over an element's children. -/
def nodesHaveTag (t : String) : List Node → Bool
  | [] => false
  | n :: ns => nodeHasTag t n || nodesHaveTag t ns

end

mutual

/-- First element with tag `t` in document order, the node itself
included: models `getElementsByTagName(t)[0]` below a given node. -/
def nodeFirstTag (t : String) : Node → Option Node
  | Node.text _ => none
  | Node.elem tg ed cs =>
      if tg == t then some (Node.elem tg ed cs) else nodesFirstTag t cs

/-- First element with tag `t` among a list of nodes and their descendants. -/
def nodesFirstTag (t : String) : List Node → Option Node
  | [] => none
  | n :: ns =>
      match nodeFirstTag t n with
      | some r => some r
      | none => nodesFirstTag t ns

end

/-- `getElementsByTagName('svg')[0]` evaluated on a node's descendants
(the node itself is not in its own result set). -/
def childrenFirstTag (t : String) : Node → Option Node
  | Node.text _ => none
  | Node.elem _ _ cs => nodesFirstTag t cs

/-- JavaScript string coercion of a possibly-`undefined` value, as done by
`element.innerHTML = x` when `x` is `undefined`. -/
def jsToString : Option String → String
  | some s => s
  | none => "undefined"

/-- JavaScript `x || ''` on a possibly-`undefined` string. -/
def jsOrEmpty : Option String → String
  | some s => s
  | none => ""

theorem jsOrEmpty_eq_getD (x : Option String) : jsOrEmpty x = x.getD "" := by
  cases x <;> rfl

/-- The ECMAScript WhiteSpace / LineTerminator classes recognised by
`String.prototype.trim` (the BMP code points). -/
def isJsWhitespace (c : Char) : Bool :=
  c = '\u0009' || c = '\u000a' || c = '\u000b' || c = '\u000c' || c = '\u000d'
    || c = '\u0020' || c = '\u00a0' || c = '\u1680'
    || ('\u2000' ≤ c && c ≤ '\u200a')
    || c = '\u2028' || c = '\u2029' || c = '\u202f' || c = '\u205f'
    || c = '\u3000' || c = '\ufeff'

/-- JavaScript `s.trim()`: strip leading and trailing whitespace. -/
def jsTrim (s : String) : String :=
  ⟨((s.data.dropWhile isJsWhitespace).reverse.dropWhile isJsWhitespace).reverse⟩

/-- The data record `{text}`; `text : Option String` since JavaScript
leaves the field `undefined` when never assigned. -/
structure MathData where
  text : Option String
deriving DecidableEq

/-- `window.math` (math.js): `parse(text).toTex({parenthesis: 'keep'})`
folded into one call; `none` models a thrown exception, and the argument
is the raw JavaScript value (possibly `undefined`). -/
structure MathLib where
  parseToTex : Option String → Option String

/-- `window.MathJax`: `getMetricsFor(node, true)` returns opaque metrics
(modelled as a `String`), `tex2svg(text, metrics)` returns a DOM node. -/
structure MathJaxLib where
  getMetricsFor : Node → Bool → String
  tex2svg : String → String → Node

/-- The browser environment: the HTML parser that `innerHTML` assignment
applies to a string, and the two global library handles, each possibly
absent (not yet loaded). -/
structure Env where
  parseHTML : String → List Node
  math : Option MathLib
  mathJax : Option MathJaxLib

/-- The mutable state of one `Math` block instance. -/
structure BlockState where
  /-- `this._data`. -/
  _data : MathData
  /-- `this._element`'s child nodes (the container's content). -/
  element : List Node
  /-- `this._element.contentEditable`. -/
  elementEditable : Bool
  /-- `this._placeholder`. -/
  _placeholder : String
  /-- `this.mathNode`'s child nodes; `none` before the first `renderSVG`. -/
  mathNode : Option (List Node)
  /-- `console.error` messages emitted so far. -/
  log : List String

/-- `set data(data) { this._data = data || {}; this._element.innerHTML =
this._data.text || ''; }` -/
def setData (env : Env) (d : Option MathData) (st : BlockState) : BlockState :=
  let nd := d.getD ⟨none⟩
  { st with _data := nd, element := env.parseHTML (jsOrEmpty nd.text) }

/-- `get data() { return this._data; }` -/
def getData (st : BlockState) : MathData :=
  st._data

/-- The constructor: stores the placeholder (default empty), sets
`this._data = {}`, draws the empty editable container, then runs
`this.data = data` through the setter. -/
def construct (env : Env) (d : Option MathData) (configPlaceholder : Option String) :
    BlockState :=
  let ph := jsOrEmpty configPlaceholder
  let st0 : BlockState :=
    { _data := ⟨none⟩, element := [], elementEditable := true,
      _placeholder := ph, mathNode := none, log := [] }
  setData env d st0

/-- `ifSVGRendered()`: whether the container holds an `svg` element. -/
def ifSVGRendered (st : BlockState) : Bool :=
  nodesHaveTag "svg" st.element

/-- `enableEditing()`: wrap `this.data.text` in a fresh contenteditable
`div` and assign its `outerHTML` to the container's `innerHTML`.  Note the
source writes `textNode.innerHTML = this.data.text` with no `|| ''`, so an
`undefined` text is coerced to the string `"undefined"`. -/
def enableEditing (env : Env) (st : BlockState) : BlockState :=
  let textNode : Node := Node.elem "div" true (env.parseHTML (jsToString st._data.text))
  { st with element := env.parseHTML (nodeOuterHTML textNode) }

/-- `getTexSyntax(mathNode)`: absent `window.math` logs an error and
returns; otherwise the parse result (or, on a thrown parse, the raw
`this.data.text`) is written into the math node. -/
def getTexSyntax (env : Env) (st : BlockState) : BlockState :=
  match env.math with
  | none => { st with log := st.log ++ ["not initiated mathjs"] }
  | some m =>
      match m.parseToTex st._data.text with
      | some tex => { st with mathNode := some (env.parseHTML tex) }
      | none => { st with mathNode := some (env.parseHTML (jsToString st._data.text)) }

/-- `textToSVG(mathNode)`: absent `window.MathJax` logs an error and
returns; otherwise typeset the math node's `innerText`, take the first
`svg` descendant of the result, and replace the container's content with
its serialization when present — else reassign the container's own
serialization to itself. -/
def textToSVG (env : Env) (st : BlockState) : BlockState :=
  match env.mathJax with
  | none => { st with log := st.log ++ ["not initiated mathJax"] }
  | some mj =>
      let mn := st.mathNode.getD []
      let options := mj.getMetricsFor (Node.elem "img" false mn) true
      let texNode := mj.tex2svg (nodesTextContent mn) options
      match childrenFirstTag "svg" texNode with
      | some svgNode => { st with element := env.parseHTML (nodeOuterHTML svgNode) }
      | none => { st with element := env.parseHTML (nodesInnerHTML st.element) }

/-- `renderSVG()`: capture the container's `innerText` into the record
(`this.data.text = this._element.innerText || this.data.text`), lazily
create the math node (`this.mathNode = this.mathNode ||
document.createElement('img')`), then run the two collaborator steps. -/
def renderSVG (env : Env) (st : BlockState) : BlockState :=
  let it := nodesTextContent st.element
  let newText : Option String := if it = "" then st._data.text else some it
  let st1 := { st with _data := ⟨newText⟩ }
  let st2 := { st1 with mathNode := some (st1.mathNode.getD []) }
  textToSVG env (getTexSyntax env st2)

/-- `render()`: one `renderSVG` pass (the dblclick listener registration
carries no state of its own). -/
def render (env : Env) (st : BlockState) : BlockState :=
  renderSVG env st

/-- `onClick()`: dispatch on `ifSVGRendered()`. -/
def onClick (env : Env) (st : BlockState) : BlockState :=
  if ifSVGRendered st then enableEditing env st else renderSVG env st

/-- `onKeyUp(e)`: refresh the editable flag from the structural state;
on Backspace/Delete with empty text content, clear the container. -/
def onKeyUp (code : String) (st : BlockState) : BlockState :=
  let st1 := { st with elementEditable := !ifSVGRendered st }
  if code ≠ "Backspace" ∧ code ≠ "Delete" then st1
  else if nodesTextContent st1.element = "" then { st1 with element := [] }
  else st1

/-- `merge(data)`: `this.data = this.data` — the getter's value (always an
object, hence truthy) fed back through the setter. -/
def merge (env : Env) (incoming : MathData) (st : BlockState) : BlockState :=
  setData env (some (getData st)) st

/-- `validate(savedData)`: `savedData.text.trim() === ''` decides the
result; `none` models the `TypeError` thrown when `text` is `undefined`. -/
def validate (savedData : MathData) : Option Bool :=
  match savedData.text with
  | none => none
  | some t => some (decide ¬ jsTrim t = "")

/-- `save(toolsContent)`: a fresh `{text: this.data.text}` snapshot; the
`toolsContent` argument is unused. -/
def save (st : BlockState) : MathData :=
  ⟨st._data.text⟩

/-- `onPaste(event)`: `this.data = {text: event.detail.data.innerHTML}`. -/
def onPaste (env : Env) (pastedInnerHTML : String) (st : BlockState) : BlockState :=
  setData env (some ⟨some pastedInnerHTML⟩) st


/-! ## Concrete environments and states used by witnesses and counterexamples -/

/-- A browser whose HTML parser treats every string as one text node, with
neither library loaded. -/
def envNoLibs : Env :=
  { parseHTML := fun s => [Node.text s], math := none, mathJax := none }

/-- A symbolic-parser handle whose parse always throws. -/
def mathThrow : MathLib :=
  ⟨fun _ => none⟩

/-- Parser present but always throwing; no typesetter. -/
def envParserThrows : Env :=
  { parseHTML := fun s => [Node.text s], math := some mathThrow, mathJax := none }

/-- A typesetter that returns a container holding an (empty) `svg`
element for every input — as real MathJax does, `tex2svg` of the empty
string included. -/
def mjSvg : MathJaxLib :=
  ⟨fun _ _ => "", fun _ _ => Node.elem "mjx-container" false [Node.elem "svg" false []]⟩

/-- No symbolic parser, but the typesetter is loaded; the browser parses
serialized `svg` markup back into an `svg` element. -/
def envSvgTypeset : Env :=
  { parseHTML := fun s =>
      if s = "<svg></svg>" then [Node.elem "svg" false []] else [Node.text s],
    math := none, mathJax := some mjSvg }

/-- A typesetter whose result contains no `svg` element. -/
def mjNoSvg : MathJaxLib :=
  ⟨fun _ _ => "", fun _ _ => Node.elem "mjx-container" false [Node.text "typeset failed"]⟩

/-- Typesetter loaded but producing no graphic. -/
def envNoSvgTypeset : Env :=
  { parseHTML := fun s => [Node.text s], math := none, mathJax := some mjNoSvg }

/-- A browser that round-trips the serialized editable wrapper around
`"2+2"`, for the toggle witness. -/
def envRoundTrip : Env :=
  { parseHTML := fun s =>
      if s = "<div contenteditable=\"true\">2+2</div>"
        then [Node.elem "div" true [Node.text "2+2"]]
        else [Node.text s],
    math := none, mathJax := none }

/-- A block whose record and container both hold the plain text `x^2`. -/
def stShowingX2 : BlockState :=
  { _data := ⟨some "x^2"⟩, element := [Node.text "x^2"], elementEditable := true,
    _placeholder := "", mathNode := none, log := [] }

/-- A block in the Rendered state: the container holds an `svg` element
while the record still holds the source text `2+2`. -/
def stRenderedBlock : BlockState :=
  { _data := ⟨some "2+2"⟩, element := [Node.elem "svg" false []],
    elementEditable := false, _placeholder := "", mathNode := some [], log := [] }

/-! ## The claims -/

/-- Claim C1: for a saved record whose `text` is a string `s`, `validate`
returns `false` iff `s` trimmed is empty, and `true` iff `s` is not
all-whitespace. -/
theorem validate_false_iff_trimmed_empty (s : String) :
    (validate ⟨some s⟩ = some false ↔ jsTrim s = "") ∧
    (validate ⟨some s⟩ = some true ↔ ¬ jsTrim s = "") := by
  by_cases h : jsTrim s = "" <;> simp [validate, h]

/-- Claim C2, counterexample: constructing with supplied data that has no
`text` field leaves the record's `text` equal to `undefined`, not
normalized to the empty string. -/
theorem setData_text_not_normalized_cex :
    (construct envNoLibs (some ⟨none⟩) none)._data.text = none ∧
    (construct envNoLibs (some ⟨none⟩) none)._data.text ≠ some "" :=
  ⟨rfl, fun h => Option.noConfusion h⟩

/-- Claim C2, amended: the data setter stores the supplied record (or `{}`
when none is given) without normalizing its `text` — an absent `text`
stays `undefined` — while the container's displayed content is always
computed from the string `text || ''`. -/
theorem setData_record_and_display (env : Env) (d : Option MathData)
    (st : BlockState) (ph : Option String) :
    (setData env d st)._data = d.getD ⟨none⟩ ∧
    (setData env d st).element = env.parseHTML (jsOrEmpty (d.getD ⟨none⟩).text) ∧
    (construct env d ph)._data = d.getD ⟨none⟩ :=
  ⟨rfl, rfl, rfl⟩

/-- Claim C4: after the record is set to `{text: s}` (via the setter or at
construction) `save` returns `{text: s}`, and `save` reads only the
in-memory record — it is a function of `_data.text` alone, never of the
container. -/
theorem save_returns_record_snapshot (env : Env) (st : BlockState)
    (ph : Option String) (s : String) :
    save (setData env (some ⟨some s⟩) st) = ⟨some s⟩ ∧
    save (construct env (some ⟨some s⟩) ph) = ⟨some s⟩ ∧
    save st = ⟨st._data.text⟩ :=
  ⟨rfl, rfl, rfl⟩

/-- Claim C5: `merge` leaves the stored record unchanged and discards the
incoming data — the result does not depend on it at all. -/
theorem merge_keeps_record (env : Env) (incoming incoming2 : MathData)
    (st : BlockState) :
    (merge env incoming st)._data = st._data ∧
    merge env incoming st = merge env incoming2 st :=
  ⟨rfl, rfl⟩

/-- Claim C7: `onPaste` replaces the record wholesale with
`{text: <pasted inner markup>}` through the data setter, so the previous
record is discarded and the container shows the pasted markup. -/
theorem onPaste_replaces_record (env : Env) (m : String) (st : BlockState) :
    onPaste env m st = setData env (some ⟨some m⟩) st ∧
    (onPaste env m st)._data = ⟨some m⟩ ∧
    (onPaste env m st).element = env.parseHTML m :=
  ⟨rfl, rfl, rfl⟩

/-- Claim C10: `merge` is not effect-free — its self-assignment runs the
data setter, so the container's displayed content is rewritten to the
stored record's text (or the empty string when `text` is unset),
replacing whatever was displayed, a rendered graphic included. -/
theorem merge_rewrites_display (env : Env) (incoming : MathData)
    (st : BlockState) :
    (merge env incoming st).element = env.parseHTML (jsOrEmpty st._data.text) ∧
    (merge env incoming st)._data = st._data ∧
    (merge envNoLibs incoming stRenderedBlock).element = [Node.text "2+2"] :=
  ⟨rfl, rfl, rfl⟩


/-- Claim C3, counterexample: with the symbolic parser absent but the
typesetter loaded, a render pass on a block showing `x^2` replaces the
container with a graphic (MathJax typesets the math node's content, which
the absent-parser branch left empty instead of filling with the raw
text), so the container does not keep displaying the literal `x^2`. -/
theorem renderSVG_parserAbsent_cex :
    envSvgTypeset.math = none ∧
    stShowingX2._data.text = some "x^2" ∧
    (renderSVG envSvgTypeset stShowingX2).element ≠ [Node.text "x^2"] ∧
    ifSVGRendered (renderSVG envSvgTypeset stShowingX2) = true := by
  refine ⟨rfl, rfl, ?_, rfl⟩
  intro h
  have h2 : [Node.elem "svg" false []] = [Node.text "x^2"] := h
  injection h2 with h3 _
  exact Node.noConfusion h3

/-- Claim C3, amended: when the symbolic parser's handle is absent the
render pass does not set the math node from the raw text (the node keeps
its previous content); with the typesetter also absent, the container is
left unchanged, still displaying the literal `x^2`, and nothing throws —
only the two missing-library errors are logged. -/
theorem renderSVG_parserAbsent (env : Env) (st : BlockState)
    (hm : env.math = none) (hj : env.mathJax = none)
    (hel : st.element = [Node.text "x^2"]) :
    (renderSVG env st).element = [Node.text "x^2"] ∧
    (renderSVG env st)._data.text = some "x^2" ∧
    (renderSVG env st).mathNode = some (st.mathNode.getD []) ∧
    (renderSVG env st).log = (st.log ++ ["not initiated mathjs"]) ++ ["not initiated mathJax"] := by
  simp [renderSVG, getTexSyntax, textToSVG, hm, hj, hel,
    nodesTextContent, nodeTextContent]

/-- Witness for the amended C3 at a concrete empty environment. -/
theorem renderSVG_parserAbsent_witness :
    (renderSVG envNoLibs stShowingX2).element = [Node.text "x^2"] ∧
    (renderSVG envNoLibs stShowingX2)._data.text = some "x^2" ∧
    (renderSVG envNoLibs stShowingX2).mathNode = some (stShowingX2.mathNode.getD []) ∧
    (renderSVG envNoLibs stShowingX2).log =
      (stShowingX2.log ++ ["not initiated mathjs"]) ++ ["not initiated mathJax"] :=
  renderSVG_parserAbsent envNoLibs stShowingX2 rfl rfl rfl

/-- Claim C6: the Rendered state is the structural presence of an `svg`
element, and the double-click handler dispatches on it — on a rendered
container the block enters editing with the stored text inside a
contenteditable `div` wrapper (record untouched), otherwise it performs a
render pass. -/
theorem onClick_toggle (env : Env) (st : BlockState) (t : String)
    (ht : st._data.text = some t)
    (hround : env.parseHTML (nodeOuterHTML (Node.elem "div" true (env.parseHTML t))) =
      [Node.elem "div" true (env.parseHTML t)]) :
    (ifSVGRendered st = nodesHaveTag "svg" st.element) ∧
    (ifSVGRendered st = true →
      onClick env st = enableEditing env st ∧
      (onClick env st).element = [Node.elem "div" true (env.parseHTML t)] ∧
      (onClick env st)._data = st._data) ∧
    (ifSVGRendered st = false → onClick env st = renderSVG env st) := by
  refine ⟨rfl, fun h => ?_, fun h => ?_⟩
  · simp [onClick, h, enableEditing, ht, jsToString, hround]
  · simp [onClick, h]

/-- Witness for C6 on a concrete rendered block. -/
theorem onClick_toggle_witness :
    onClick envRoundTrip stRenderedBlock = enableEditing envRoundTrip stRenderedBlock ∧
    (onClick envRoundTrip stRenderedBlock).element =
      [Node.elem "div" true (envRoundTrip.parseHTML "2+2")] ∧
    (onClick envRoundTrip stRenderedBlock)._data = stRenderedBlock._data :=
  (onClick_toggle envRoundTrip stRenderedBlock "2+2" rfl rfl).2.1 rfl

/-- Claim C8, counterexample: with the parser present but throwing on the
current text, `getTexSyntax` falls back to the raw text in the math node
yet logs nothing — the log stays empty, refuting "the failure is
logged". -/
theorem getTexSyntax_silent_catch_cex :
    envParserThrows.math = some mathThrow ∧
    mathThrow.parseToTex stShowingX2._data.text = none ∧
    (getTexSyntax envParserThrows stShowingX2).mathNode = some [Node.text "x^2"] ∧
    (getTexSyntax envParserThrows stShowingX2).log = [] :=
  ⟨rfl, rfl, rfl, rfl⟩

/-- Claim C8, amended: a parser exception during a render pass is caught
and the raw text is used as the intermediate markup, nothing is thrown to
the host — but the failure is swallowed silently, not logged (the catch
block writes the fallback and logs nothing). -/
theorem getTexSyntax_parseFailure (env : Env) (st : BlockState) (m : MathLib)
    (hm : env.math = some m) (hthrow : m.parseToTex st._data.text = none) :
    (getTexSyntax env st).mathNode = some (env.parseHTML (jsToString st._data.text)) ∧
    (getTexSyntax env st).log = st.log ∧
    (getTexSyntax env st).element = st.element ∧
    (getTexSyntax env st)._data = st._data := by
  simp [getTexSyntax, hm, hthrow]

/-- Witness for the amended C8 at a concrete throwing parser. -/
theorem getTexSyntax_parseFailure_witness :
    (getTexSyntax envParserThrows stShowingX2).mathNode =
      some (envParserThrows.parseHTML (jsToString stShowingX2._data.text)) ∧
    (getTexSyntax envParserThrows stShowingX2).log = stShowingX2.log ∧
    (getTexSyntax envParserThrows stShowingX2).element = stShowingX2.element ∧
    (getTexSyntax envParserThrows stShowingX2)._data = stShowingX2._data :=
  getTexSyntax_parseFailure envParserThrows stShowingX2 mathThrow rfl rfl

/-- Claim C9: `textToSVG` replaces the container's content only when the
typesetter produced an `svg`: an absent typesetter handle only logs an
error and leaves the content unchanged, and a typeset result without an
`svg` element reassigns the container's own serialization (content
unchanged whenever the browser's parse of it round-trips); neither case
throws. -/
theorem textToSVG_replaces_only_on_svg (env : Env) (st : BlockState) :
    (env.mathJax = none →
      (textToSVG env st).element = st.element ∧
      (textToSVG env st).log = st.log ++ ["not initiated mathJax"]) ∧
    (∀ mj : MathJaxLib, env.mathJax = some mj →
      childrenFirstTag "svg"
          (mj.tex2svg (nodesTextContent (st.mathNode.getD []))
            (mj.getMetricsFor (Node.elem "img" false (st.mathNode.getD [])) true)) = none →
      env.parseHTML (nodesInnerHTML st.element) = st.element →
      (textToSVG env st).element = st.element ∧
      (textToSVG env st).log = st.log) := by
  refine ⟨fun h => ?_, fun mj hj hsvg hround => ?_⟩
  · simp [textToSVG, h]
  · simp [textToSVG, hj, hsvg, hround]

/-- Witness for C9: the absent-typesetter case and the no-`svg`-result
case, both on concrete blocks. -/
theorem textToSVG_replaces_only_on_svg_witness :
    ((textToSVG envNoLibs stShowingX2).element = stShowingX2.element ∧
      (textToSVG envNoLibs stShowingX2).log = stShowingX2.log ++ ["not initiated mathJax"]) ∧
    ((textToSVG envNoSvgTypeset stShowingX2).element = stShowingX2.element ∧
      (textToSVG envNoSvgTypeset stShowingX2).log = stShowingX2.log) :=
  ⟨(textToSVG_replaces_only_on_svg envNoLibs stShowingX2).1 rfl,
   (textToSVG_replaces_only_on_svg envNoSvgTypeset stShowingX2).2 mjNoSvg rfl rfl rfl⟩

end EditorMath
